import Mathlib

set_option linter.unusedVariables false

/-
Verification of the statement-building and execution core of the porus ORM
(src/porus).  Python source files are embedded shallowly: Python values become
an inductive type `PyValue`, methods become Lean functions, raised exceptions
become `Except` errors, and the handful of places where the code mutates an
object in place are modelled with explicit state passing.  Every definition is
translated from the source files (engine.py, utilities.py, column.py,
statement/base_statement.py, statement/query.py, statement/delete.py); where a
definition instead follows the specification's words for comparison, its doc
comment says so explicitly.
-/

/-- Declared field types (the pydantic annotations the code inspects):
`int`, `str`, `float`, `bool`, or some other class identified by name
(stored with BLOB affinity per utilities._get_type). -/
inductive PyType
  | intTy
  | strTy
  | floatTy
  | boolTy
  | bytesTy
  | classTy (name : String)
deriving DecidableEq

/-- Python runtime values as they flow through the library: None, bool, int,
float (payload modelled as a rational, only ever passed through), str, bytes,
or any other object carrying its class name and its textual representation
(what `str(value)` returns). -/
inductive PyValue
  | none
  | bool (b : Bool)
  | int (n : Int)
  | float (q : Rat)
  | str (s : String)
  | bytes (bs : List Nat)
  | obj (className : String) (txt : String)
deriving DecidableEq

/-- Python truthiness (`not value`): None, False, 0, 0.0, empty string and
empty bytes are falsy; a plain object is truthy by default. -/
def pyFalsy : PyValue → Bool
  | .none => true
  | .bool b => !b
  | .int n => n == 0
  | .float q => q == 0
  | .str s => s.isEmpty
  | .bytes bs => bs.isEmpty
  | .obj _ _ => false

/-- `str(value)`: the textual representation.  Only the `.obj` case is ever
reached by the code below (the other cases are filtered out first), but the
function is total like Python's `str`. -/
def pyStr : PyValue → String
  | .none => "None"
  | .bool b => if b then "True" else "False"
  | .int n => toString n
  | .float q => toString q
  | .str s => s
  | .bytes _ => "bytes"
  | .obj _ txt => txt

/-- `isinstance(value, (str, int, float, bytes, type(None)))` from
utilities._convert_values.  Note the Python subtlety embedded faithfully here:
`bool` is a subclass of `int`, so a boolean value satisfies this check. -/
def isinstance_str_int_float_bytes_none : PyValue → Bool
  | .none => true
  | .bool _ => true
  | .int _ => true
  | .float _ => true
  | .str _ => true
  | .bytes _ => true
  | .obj _ _ => false

/-- `isinstance(value, bool)`. -/
def isinstance_bool : PyValue → Bool
  | .bool _ => true
  | _ => false

/-- `int(value)` applied to a boolean (the only use in the source). -/
def pyIntOfBool : PyValue → PyValue
  | .bool b => .int (if b then 1 else 0)
  | v => v

/-- utilities._convert_values: for each element, values recognised by SQLite
(str, int, float, bytes, None — and, because `bool` is a subclass of `int`,
also booleans) are left as they are; the `isinstance(value, bool)` branch of
the source, kept here verbatim, is unreachable for that reason; everything
else is replaced by its textual representation. -/
def convert_values (values : List PyValue) : List PyValue :=
  values.map fun value =>
    if isinstance_str_int_float_bytes_none value then value
    else if isinstance_bool value then pyIntOfBool value
    else .str (pyStr value)

/-- `isinstance(other, self.field.annotation)` for a single annotation class:
a boolean is also an instance of `int` (subclassing); no other cross-type
instance relation holds among the modelled classes. -/
def isinstanceOf : PyValue → PyType → Bool
  | .none, _ => false
  | .bool _, .intTy => true
  | .bool _, .boolTy => true
  | .bool _, _ => false
  | .int _, .intTy => true
  | .int _, _ => false
  | .float _, .floatTy => true
  | .float _, _ => false
  | .str _, .strTy => true
  | .str _, _ => false
  | .bytes _, .bytesTy => true
  | .bytes _, _ => false
  | .obj c _, .classTy c2 => c == c2
  | .obj _ _, _ => false

/-- One declared field of a Table subclass, as Engine.insert reads it from
`obj.model_fields` and `obj.model_dump()`: its name, whether its
`json_schema_extra` carries a true `primary_key` flag, and its current value.
Fields appear in declared order. -/
structure ModelField where
  name : String
  primary_key : Bool
  value : PyValue
deriving DecidableEq

/-- A Table instance as Engine.insert consumes it: the derived table name
(class name lower-cased) and the ordered fields. -/
structure TableObj where
  table_name : String
  fields : List ModelField
deriving DecidableEq

/-- The column list Engine.insert builds: every field except primary-key
fields whose current value is falsy, in declared order. -/
def insertKeys (obj : TableObj) : List String :=
  (obj.fields.filter fun f => !(f.primary_key && pyFalsy f.value)).map ModelField.name

/-- The bound value list Engine.insert builds, aligned with `insertKeys`. -/
def insertValues (obj : TableObj) : List PyValue :=
  (obj.fields.filter fun f => !(f.primary_key && pyFalsy f.value)).map ModelField.value

/-- The SQL string Engine.insert actually passes to `conn.execute`.  In the
source, `statement` is assigned the single f-string
`f"INSERT INTO {obj.table_name} ({', '.join(keys)}) VALUES "`; the next
source line, which holds the placeholder list and `RETURNING *;`, is a bare
expression statement — it is evaluated and discarded, never concatenated onto
`statement`.  The executed SQL is therefore only this prefix. -/
def insertStatementExecuted (obj : TableObj) : String :=
  "INSERT INTO " ++ obj.table_name ++ " (" ++ String.intercalate ", " (insertKeys obj)
    ++ ") VALUES "

/-- The orphaned second f-string of Engine.insert (evaluated and discarded by
Python): the parenthesised placeholder list and the RETURNING clause. -/
def insertStatementOrphanSuffix (obj : TableObj) : String :=
  "(" ++ String.intercalate ", " ((insertValues obj).map fun _ => "?") ++ ") RETURNING *;"

/-- The INSERT statement as the specification and the claim describe it: the
full parameterized `INSERT INTO t (cols) VALUES (?, ...) RETURNING *;`, i.e.
the prefix the code builds with the orphaned suffix actually appended. -/
def insertStatementClaimed (obj : TableObj) : String :=
  insertStatementExecuted obj ++ insertStatementOrphanSuffix obj

/-- The SQL string Engine._check_if_table_exists actually executes.  As in
`insert`, the source assigns `statement` only the first string literal
`"SELECT name FROM sqlite_master WHERE type='table' "`; the following line
with the f-string `AND name='...';` filter is a bare expression statement and
is never concatenated.  The executed catalog query therefore has no name
filter. -/
def checkTableExistsExecutedSQL : String :=
  let quote := String.singleton (Char.ofNat 39)
  "SELECT name FROM sqlite_master WHERE type=" ++ quote ++ "table" ++ quote ++ " "

/-- Engine._check_if_table_exists, run against a catalog (the list of table
names in sqlite_master).  Because the executed SQL carries no name filter, the
result set is every table name, and `fetchone()` is truthy exactly when the
catalog is non-empty — the `tbl` argument is never consulted by the executed
query. -/
def check_if_table_exists (catalog : List String) (tbl : String) : Bool :=
  !(catalog.isEmpty)

/-- The existence check as the specification describes it: a name match
against the storage engine's catalog. -/
def check_if_table_exists_claimed (catalog : List String) (tbl : String) : Bool :=
  catalog.contains tbl

/-- Engine.push over the catalog state: when the existence check fails it
issues CREATE TABLE (adding the table's name to the catalog); the Bool
records whether a CREATE TABLE statement was issued. -/
def push (catalog : List String) (tbl : String) : List String × Bool :=
  if !(check_if_table_exists catalog tbl) then (catalog ++ [tbl], true)
  else (catalog, false)

/-- column.WhereStatement: a rendered boolean fragment with positional
placeholders and its bound value list. -/
structure WhereStatement where
  statement : String
  values : List PyValue
deriving DecidableEq

/-- The pure content of WhereStatement.__and__: the parenthesised combined
fragment and the concatenated value list (self's values extended with
other's, left then right). -/
def WhereStatement.andW (a b : WhereStatement) : WhereStatement :=
  { statement := "(" ++ a.statement ++ " AND " ++ b.statement ++ ")"
    values := a.values ++ b.values }

/-- The pure content of WhereStatement.__or__. -/
def WhereStatement.orW (a b : WhereStatement) : WhereStatement :=
  { statement := "(" ++ a.statement ++ " OR " ++ b.statement ++ ")"
    values := a.values ++ b.values }

/-- WhereStatement.__and__ with Python object identity made explicit: the
heap maps references (naturals) to WhereStatement contents.  The method
mutates `self` (reference `a`) in place — its fragment and values are
rebuilt from the current contents of `a` and `b` — and returns `self`'s own
reference.  `b`'s heap cell is not written. -/
def whereAndRef (heap : Nat → WhereStatement) (a b : Nat) : (Nat → WhereStatement) × Nat :=
  (Function.update heap a (WhereStatement.andW (heap a) (heap b)), a)

/-- WhereStatement.__or__ with explicit object identity, as `whereAndRef`. -/
def whereOrRef (heap : Nat → WhereStatement) (a b : Nat) : (Nat → WhereStatement) × Nat :=
  (Function.update heap a (WhereStatement.orW (heap a) (heap b)), a)

/-- column.ColumnFunction. -/
inductive ColumnFunction
  | COUNT
  | MAX
  | MIN
  | SUM
  | AVG
deriving DecidableEq

/-- ColumnFunction.value. -/
def ColumnFunction.value : ColumnFunction → String
  | .COUNT => "COUNT"
  | .MAX => "MAX"
  | .MIN => "MIN"
  | .SUM => "SUM"
  | .AVG => "AVG"

/-- column.Column: the field's declared annotation (`annot` stands for the
source's `field.annotation`), the column and table names, and the optional
aggregate function attached by max/min/sum/count/avg. -/
structure Column where
  annot : PyType
  column_name : String
  table_name : String
  function_applied : Option ColumnFunction := Option.none
deriving DecidableEq

/-- Column.get_query. -/
def Column.get_query (c : Column) : String :=
  match c.function_applied with
  | .some f => f.value ++ "(" ++ c.column_name ++ ")"
  | .none => c.column_name

/-- Errors raised by the embedded code.  The source raises ValueError with a
message (and InvalidOperationError for rejected clause methods); each
constructor stands for one family of messages. -/
inductive PorusError
  | typeMismatch
  | duplicateClause (kind : Nat)
  | missingClause (name : String)
  | invalidOperation
  | unsupportedCombination
  | rowArityMismatch (rowLen fieldLen : Nat)
deriving DecidableEq

/-- Column.__eq__: raise on an operand that is not an instance of the
declared annotation, otherwise a one-placeholder WhereStatement. -/
def Column.eqOp (c : Column) (other : PyValue) : Except PorusError WhereStatement :=
  if !(isinstanceOf other c.annot) then .error .typeMismatch
  else .ok { statement := c.column_name ++ " = ?", values := [other] }

/-- Column.__ne__. -/
def Column.neOp (c : Column) (other : PyValue) : Except PorusError WhereStatement :=
  if !(isinstanceOf other c.annot) then .error .typeMismatch
  else .ok { statement := c.column_name ++ " != ?", values := [other] }

/-- Column.__lt__. -/
def Column.ltOp (c : Column) (other : PyValue) : Except PorusError WhereStatement :=
  if !(isinstanceOf other c.annot) then .error .typeMismatch
  else .ok { statement := c.column_name ++ " < ?", values := [other] }

/-- Column.__le__. -/
def Column.leOp (c : Column) (other : PyValue) : Except PorusError WhereStatement :=
  if !(isinstanceOf other c.annot) then .error .typeMismatch
  else .ok { statement := c.column_name ++ " <= ?", values := [other] }

/-- Column.__gt__. -/
def Column.gtOp (c : Column) (other : PyValue) : Except PorusError WhereStatement :=
  if !(isinstanceOf other c.annot) then .error .typeMismatch
  else .ok { statement := c.column_name ++ " > ?", values := [other] }

/-- Column.__ge__. -/
def Column.geOp (c : Column) (other : PyValue) : Except PorusError WhereStatement :=
  if !(isinstanceOf other c.annot) then .error .typeMismatch
  else .ok { statement := c.column_name ++ " >= ?", values := [other] }

/-- The six comparison operators, for quantifying over all of them. -/
inductive CompOp
  | eq
  | ne
  | lt
  | le
  | gt
  | ge
deriving DecidableEq

/-- The SQL symbol each comparison operator renders. -/
def CompOp.sym : CompOp → String
  | .eq => "="
  | .ne => "!="
  | .lt => "<"
  | .le => "<="
  | .gt => ">"
  | .ge => ">="

/-- Dispatch a comparison operator to the corresponding Column method. -/
def Column.compare (c : Column) (op : CompOp) (other : PyValue) :
    Except PorusError WhereStatement :=
  match op with
  | .eq => c.eqOp other
  | .ne => c.neOp other
  | .lt => c.ltOp other
  | .le => c.leOp other
  | .gt => c.gtOp other
  | .ge => c.geOp other

/-- statement/clause_enums.QueryClause with its declared numeric values. -/
inductive QueryClause
  | SELECT
  | FROM
  | WHERE
  | GROUP_BY
  | ORDER_BY
  | LIMIT
  | OFFSET
deriving DecidableEq

/-- QueryClause.value: the fixed rendering rank. -/
def QueryClause.rank : QueryClause → Nat
  | .SELECT => 0
  | .FROM => 1
  | .WHERE => 2
  | .GROUP_BY => 3
  | .ORDER_BY => 4
  | .LIMIT => 5
  | .OFFSET => 6

/-- One entry of BaseStatement.statements: the tuple
(clause fragment, clause enum, values or None). -/
structure Slot where
  clause : String
  kind : QueryClause
  values : Option (List PyValue)
deriving DecidableEq

/-- Python truthiness of the tuple's third component `if value:` — `None`
and the empty list are falsy. -/
def slotValuesTruthy : Option (List PyValue) → Bool
  | .none => false
  | .some l => !l.isEmpty

/-- The values a slot contributes when truthy. -/
def slotValuesList : Option (List PyValue) → List PyValue
  | .none => []
  | .some l => l

/-- A Query statement: the accumulated slots and the _can_return_table
flag. -/
structure QueryStmt where
  statements : List Slot
  can_return_table : Bool
deriving DecidableEq

/-- BaseStatement.limit. -/
def QueryStmt.limit (q : QueryStmt) (n : Int) : QueryStmt :=
  { q with statements := q.statements ++ [{ clause := "LIMIT ?", kind := .LIMIT, values := .some [.int n] }] }

/-- BaseStatement.offset. -/
def QueryStmt.offset (q : QueryStmt) (n : Int) : QueryStmt :=
  { q with statements := q.statements ++ [{ clause := "OFFSET ?", kind := .OFFSET, values := .some [.int n] }] }

/-- BaseStatement.where (named whereClause because `where` is reserved in
Lean). -/
def QueryStmt.whereClause (q : QueryStmt) (w : WhereStatement) : QueryStmt :=
  { q with statements := q.statements ++ [{ clause := "WHERE " ++ w.statement, kind := .WHERE, values := .some w.values }] }

/-- BaseStatement.group_by (the all-Columns argument check always passes in
this typed embedding); it also clears _can_return_table. -/
def QueryStmt.group_by (q : QueryStmt) (columns : List Column) : QueryStmt :=
  { statements := q.statements ++ [{ clause := "GROUP BY " ++ String.intercalate ", " (columns.map Column.column_name), kind := .GROUP_BY, values := .none }]
    can_return_table := false }

/-- BaseStatement.order_by. -/
def QueryStmt.order_by (q : QueryStmt) (columns : List Column) (ascending : Bool) : QueryStmt :=
  { q with statements := q.statements ++ [{ clause := "ORDER BY " ++ String.intercalate ", " (columns.map Column.column_name) ++ " " ++ (if ascending then "ASC" else "DESC"), kind := .ORDER_BY, values := .none }] }

/-- Query.__init__ via _select_table: the seeded SELECT * / FROM slots for a
whole-table query. -/
def Query.fromTable (tbl : String) : QueryStmt :=
  { statements :=
      [ { clause := "SELECT *", kind := .SELECT, values := .none }
      , { clause := "FROM " ++ tbl, kind := .FROM, values := .none } ]
    can_return_table := true }

/-- Query.__init__ via _select_columns (note the source appends FROM before
SELECT here; the sort at render time puts them back in rank order). -/
def Query.fromColumns (tbl : String) (columns : List Column) : QueryStmt :=
  { statements :=
      [ { clause := "FROM " ++ tbl, kind := .FROM, values := .none }
      , { clause := "SELECT " ++ String.intercalate ", " (columns.map Column.get_query), kind := .SELECT, values := .none } ]
    can_return_table := false }

/-- Query._validate_query: SELECT and FROM must be present; when OFFSET is
present without LIMIT, `self.limit(-1)` is appended. -/
def Query.validate (q : QueryStmt) : Except PorusError QueryStmt :=
  let clauses := q.statements.map Slot.kind
  if QueryClause.SELECT ∉ clauses then .error (.missingClause "SELECT")
  else if QueryClause.FROM ∉ clauses then .error (.missingClause "FROM")
  else if QueryClause.OFFSET ∈ clauses ∧ QueryClause.LIMIT ∉ clauses then .ok (q.limit (-1))
  else .ok q

/-- Stable insertion step: place `x` after every element whose key does not
exceed `x`'s key.  Together with `pySort` this computes exactly the output of
Python's stable `list.sort(key=...)` (any two stable sorts by the same key
agree). -/
def pyInsert {α : Type} (key : α → Nat) (x : α) : List α → List α
  | [] => [x]
  | y :: ys => if key y ≤ key x then y :: pyInsert key x ys else x :: y :: ys

/-- Left-to-right driver for the stable sort. -/
def pySortAux {α : Type} (key : α → Nat) (acc : List α) : List α → List α
  | [] => acc
  | x :: xs => pySortAux key (pyInsert key x acc) xs

/-- Model of `self.statements.sort(key=lambda x: x[1].value)`: a stable sort
by the clause rank. -/
def pySort {α : Type} (key : α → Nat) (l : List α) : List α :=
  pySortAux key [] l

/-- The loop body of BaseStatement._build_statement: walk the sorted slots,
reject a clause kind already seen, append the fragment after a space, extend
the values when the slot's value list is truthy. -/
def buildFold : List Slot → String → List PyValue → List QueryClause →
    Except PorusError (String × List PyValue)
  | [], stmt, vals, _ => .ok (stmt, vals)
  | s :: rest, stmt, vals, seen =>
    if s.kind ∈ seen then .error (.duplicateClause s.kind.rank)
    else
      buildFold rest (stmt ++ " " ++ s.clause)
        (vals ++ (if slotValuesTruthy s.values then slotValuesList s.values else []))
        (s.kind :: seen)

/-- BaseStatement._build_statement for a Query: validate (which may append
the repair LIMIT), sort the slots stably by clause rank, concatenate
fragments and values, then run the values through utilities._convert_values.
-/
def build_statement (q : QueryStmt) : Except PorusError (String × List PyValue) :=
  match Query.validate q with
  | .error e => .error e
  | .ok q2 =>
    match buildFold (pySort (fun s : Slot => s.kind.rank) q2.statements) "" [] [] with
    | .error e => .error e
    | .ok (stmt, vals) => .ok (stmt, convert_values vals)

/-- statement/clause_enums.DeleteClause. -/
inductive DeleteClause
  | DELETE
  | WHERE
  | RETURNING
deriving DecidableEq

/-- DeleteClause.value. -/
def DeleteClause.value : DeleteClause → Nat
  | .DELETE => 0
  | .WHERE => 1
  | .RETURNING => 2

/-- statement/clause_enums.UpdateClause with its declared numeric values. -/
inductive UpdateClause
  | UPDATE
  | SET
  | FROM
  | WHERE
  | RETURNING
  | ORDER_BY
  | LIMIT
  | OFFSET
deriving DecidableEq

/-- UpdateClause.value. -/
def UpdateClause.value : UpdateClause → Nat
  | .UPDATE => 0
  | .SET => 1
  | .FROM => 2
  | .WHERE => 3
  | .RETURNING => 4
  | .ORDER_BY => 5
  | .LIMIT => 6
  | .OFFSET => 7

/-- A clause enum member as it sits in a statement's slot tuple.  The slot
tuples of Update and Delete statements mix members of different Enum
classes: the clause methods inherited from BaseStatement always append
QueryClause members (base_statement.py — limit appends QueryClause.LIMIT,
offset QueryClause.OFFSET, where QueryClause.WHERE, and so on), while the
statements' own __init__/returning append UpdateClause or DeleteClause
members.  Python Enum members compare by object identity — Enum defines no
value-based __eq__ — so members of two different Enum classes are never
equal even when their numeric values coincide; structural equality of this
sum type models exactly that.  The numeric `value` below is what the sort
key `lambda x: x[1].value` reads. -/
inductive PyEnumMember
  | q (k : QueryClause)
  | u (k : UpdateClause)
  | d (k : DeleteClause)
deriving DecidableEq

/-- The `.value` attribute of the member, the sort key of the rendering
loop. -/
def PyEnumMember.value : PyEnumMember → Nat
  | .q k => k.rank
  | .u k => k.value
  | .d k => k.value

/-- A slot of an Update or Delete statement: the tuple
(clause fragment, clause enum member, values or None), with the enum member
drawn from whichever Enum class the appending method used. -/
structure GSlot where
  clause : String
  kind : PyEnumMember
  values : Option (List PyValue)
deriving DecidableEq

/-- statement/delete.Delete: the accumulated slots (seeded with the DELETE
FROM clause by __init__) and the _can_return_table flag. -/
structure DeleteStmt where
  statements : List GSlot
  can_return_table : Bool
deriving DecidableEq

/-- Delete.__init__ / Delete._delete_table for a table. -/
def Delete.fromTable (tbl : String) : DeleteStmt :=
  { statements := [{ clause := "DELETE FROM " ++ tbl, kind := .d .DELETE, values := .none }]
    can_return_table := true }

/-- Delete.order_by: its body is a single
`raise InvalidOperationError(...)`, so for every receiver and every argument
the call errors before touching `self.statements`. -/
def Delete.order_by (d : DeleteStmt) (columns : List Column) (ascending : Bool) :
    Except PorusError DeleteStmt :=
  .error .invalidOperation

/-- Delete.limit: a single raise, as Delete.order_by. -/
def Delete.limit (d : DeleteStmt) (n : Int) : Except PorusError DeleteStmt :=
  .error .invalidOperation

/-- Delete.offset: a single raise, as Delete.order_by. -/
def Delete.offset (d : DeleteStmt) (n : Int) : Except PorusError DeleteStmt :=
  .error .invalidOperation

/-- BaseStatement.where as inherited by Delete: appends a slot tagged with
QueryClause.WHERE (not DeleteClause.WHERE). -/
def DeleteStmt.whereClause (s : DeleteStmt) (w : WhereStatement) : DeleteStmt :=
  { s with statements := s.statements ++
      [{ clause := "WHERE " ++ w.statement, kind := .q .WHERE, values := .some w.values }] }

/-- Delete.returning: with no columns appends `RETURNING *`, otherwise the
named columns (clearing _can_return_table); both branches tag the slot with
DeleteClause.RETURNING.  The all-Columns and same-table checks of the source
always pass in this typed embedding. -/
def DeleteStmt.returning (s : DeleteStmt) (columns : List Column) : DeleteStmt :=
  if columns.isEmpty then
    { s with statements := s.statements ++
        [{ clause := "RETURNING *", kind := .d .RETURNING, values := .none }] }
  else
    { statements := s.statements ++
        [{ clause := "RETURNING " ++ String.intercalate ", " (columns.map Column.column_name)
           kind := .d .RETURNING, values := .none }]
      can_return_table := false }

/-- Delete._validate_query: only checks that the DELETE clause is present. -/
def Delete.validate (s : DeleteStmt) : Except PorusError DeleteStmt :=
  if PyEnumMember.d DeleteClause.DELETE ∉ s.statements.map GSlot.kind then
    .error (.missingClause "DELETE")
  else .ok s

/-- One clause-adding call on a delete statement that does not raise at call
time (order_by/limit/offset/group_by all raise immediately, so where and
returning are the only slot-appending calls a delete statement admits). -/
inductive DeleteCall
  | whereClause (w : WhereStatement)
  | returning (columns : List Column)
deriving DecidableEq

/-- Apply one delete clause call. -/
def applyDeleteCall (s : DeleteStmt) : DeleteCall → DeleteStmt
  | .whereClause w => s.whereClause w
  | .returning columns => s.returning columns

/-- Apply a chain of delete clause calls left to right. -/
def applyDeleteCalls (s : DeleteStmt) (calls : List DeleteCall) : DeleteStmt :=
  calls.foldl applyDeleteCall s

/-- The slot each delete clause call appends. -/
def slotOfDeleteCall : DeleteCall → GSlot
  | .whereClause w =>
    { clause := "WHERE " ++ w.statement, kind := .q .WHERE, values := .some w.values }
  | .returning columns =>
    if columns.isEmpty then
      { clause := "RETURNING *", kind := .d .RETURNING, values := .none }
    else
      { clause := "RETURNING " ++ String.intercalate ", " (columns.map Column.column_name)
        kind := .d .RETURNING, values := .none }

/-- statement/update.Update: the accumulated slots and the
_can_return_table flag (always false: an Update selects columns, not a
table). -/
structure UpdateStmt where
  statements : List GSlot
  can_return_table : Bool
deriving DecidableEq

/-- Update.__init__ via _update_columns and _set_statement: the seeded
UPDATE and SET slots.  `frags` are the set statements' fragments
(`<col> = <col> <op> ?` each) and `vals` their concatenated bound values. -/
def Update.fromSet (tbl : String) (frags : List String) (vals : List PyValue) : UpdateStmt :=
  { statements :=
      [ { clause := "UPDATE " ++ tbl, kind := .u .UPDATE, values := .none }
      , { clause := "SET " ++ String.intercalate ", " frags, kind := .u .SET, values := .some vals } ]
    can_return_table := false }

/-- BaseStatement.limit as inherited by Update: note the slot is tagged with
QueryClause.LIMIT, not UpdateClause.LIMIT. -/
def UpdateStmt.limit (s : UpdateStmt) (n : Int) : UpdateStmt :=
  { s with statements := s.statements ++
      [{ clause := "LIMIT ?", kind := .q .LIMIT, values := .some [.int n] }] }

/-- BaseStatement.offset as inherited by Update: tagged QueryClause.OFFSET. -/
def UpdateStmt.offset (s : UpdateStmt) (n : Int) : UpdateStmt :=
  { s with statements := s.statements ++
      [{ clause := "OFFSET ?", kind := .q .OFFSET, values := .some [.int n] }] }

/-- BaseStatement.where as inherited by Update: tagged QueryClause.WHERE. -/
def UpdateStmt.whereClause (s : UpdateStmt) (w : WhereStatement) : UpdateStmt :=
  { s with statements := s.statements ++
      [{ clause := "WHERE " ++ w.statement, kind := .q .WHERE, values := .some w.values }] }

/-- BaseStatement.group_by as inherited by Update. -/
def UpdateStmt.group_by (s : UpdateStmt) (columns : List Column) : UpdateStmt :=
  { statements := s.statements ++
      [{ clause := "GROUP BY " ++ String.intercalate ", " (columns.map Column.column_name)
         kind := .q .GROUP_BY, values := .none }]
    can_return_table := false }

/-- BaseStatement.order_by as inherited by Update. -/
def UpdateStmt.order_by (s : UpdateStmt) (columns : List Column) (ascending : Bool) : UpdateStmt :=
  { s with statements := s.statements ++
      [{ clause := "ORDER BY " ++ String.intercalate ", " (columns.map Column.column_name)
            ++ " " ++ (if ascending then "ASC" else "DESC")
         kind := .q .ORDER_BY, values := .none }] }

/-- Update.returning: `RETURNING *` or the named columns, tagged with
UpdateClause.RETURNING. -/
def UpdateStmt.returning (s : UpdateStmt) (columns : List Column) : UpdateStmt :=
  if columns.isEmpty then
    { s with statements := s.statements ++
        [{ clause := "RETURNING *", kind := .u .RETURNING, values := .none }] }
  else
    { s with statements := s.statements ++
        [{ clause := "RETURNING " ++ String.intercalate ", " (columns.map Column.column_name)
           kind := .u .RETURNING, values := .none }] }

/-- Update._validate_query, verbatim: the four checks test membership of
UpdateClause members.  The LIMIT/OFFSET-without-RETURNING guard and the
OFFSET auto-repair test UpdateClause.LIMIT and UpdateClause.OFFSET, but the
inherited limit/offset methods append QueryClause-tagged slots, and Enum
members of different classes are never equal — so on any statement built
through the API these two conditions are false and validation only ever
checks the seeded UPDATE and SET slots. -/
def Update.validate (s : UpdateStmt) : Except PorusError UpdateStmt :=
  if PyEnumMember.u UpdateClause.UPDATE ∉ s.statements.map GSlot.kind then
    .error (.missingClause "UPDATE")
  else if PyEnumMember.u UpdateClause.SET ∉ s.statements.map GSlot.kind then
    .error (.missingClause "SET")
  else if (PyEnumMember.u UpdateClause.LIMIT ∈ s.statements.map GSlot.kind ∨
      PyEnumMember.u UpdateClause.OFFSET ∈ s.statements.map GSlot.kind) ∧
      PyEnumMember.u UpdateClause.RETURNING ∉ s.statements.map GSlot.kind then
    .error .unsupportedCombination
  else if PyEnumMember.u UpdateClause.OFFSET ∈ s.statements.map GSlot.kind ∧
      PyEnumMember.u UpdateClause.LIMIT ∉ s.statements.map GSlot.kind then
    .ok (s.limit (-1))
  else .ok s

/-- One clause-adding call on an update statement. -/
inductive UpdateCall
  | limit (n : Int)
  | offset (n : Int)
  | whereClause (w : WhereStatement)
  | group_by (columns : List Column)
  | order_by (columns : List Column) (ascending : Bool)
  | returning (columns : List Column)
deriving DecidableEq

/-- Apply one update clause call. -/
def applyUpdateCall (s : UpdateStmt) : UpdateCall → UpdateStmt
  | .limit n => s.limit n
  | .offset n => s.offset n
  | .whereClause w => s.whereClause w
  | .group_by columns => s.group_by columns
  | .order_by columns ascending => s.order_by columns ascending
  | .returning columns => s.returning columns

/-- Apply a chain of update clause calls left to right. -/
def applyUpdateCalls (s : UpdateStmt) (calls : List UpdateCall) : UpdateStmt :=
  calls.foldl applyUpdateCall s

/-- The slot each update clause call appends. -/
def slotOfUpdateCall : UpdateCall → GSlot
  | .limit n => { clause := "LIMIT ?", kind := .q .LIMIT, values := .some [.int n] }
  | .offset n => { clause := "OFFSET ?", kind := .q .OFFSET, values := .some [.int n] }
  | .whereClause w =>
    { clause := "WHERE " ++ w.statement, kind := .q .WHERE, values := .some w.values }
  | .group_by columns =>
    { clause := "GROUP BY " ++ String.intercalate ", " (columns.map Column.column_name)
      kind := .q .GROUP_BY, values := .none }
  | .order_by columns ascending =>
    { clause := "ORDER BY " ++ String.intercalate ", " (columns.map Column.column_name)
          ++ " " ++ (if ascending then "ASC" else "DESC")
      kind := .q .ORDER_BY, values := .none }
  | .returning columns =>
    if columns.isEmpty then
      { clause := "RETURNING *", kind := .u .RETURNING, values := .none }
    else
      { clause := "RETURNING " ++ String.intercalate ", " (columns.map Column.column_name)
        kind := .u .RETURNING, values := .none }

/-- The loop body of BaseStatement._build_statement over Update/Delete
slots: identical to the query-statement fold, with the seen set holding enum
members (the duplicate error reports the member's numeric value). -/
def buildFoldG : List GSlot → String → List PyValue → List PyEnumMember →
    Except PorusError (String × List PyValue)
  | [], stmt, vals, _ => .ok (stmt, vals)
  | s :: rest, stmt, vals, seen =>
    if s.kind ∈ seen then .error (.duplicateClause s.kind.value)
    else
      buildFoldG rest (stmt ++ " " ++ s.clause)
        (vals ++ (if slotValuesTruthy s.values then slotValuesList s.values else []))
        (s.kind :: seen)

/-- BaseStatement._build_statement for an Update: Update._validate_query,
the stable sort by `x[1].value`, the fold, then value coercion. -/
def update_build_statement (s : UpdateStmt) : Except PorusError (String × List PyValue) :=
  match Update.validate s with
  | .error e => .error e
  | .ok s2 =>
    match buildFoldG (pySort (fun sl : GSlot => sl.kind.value) s2.statements) "" [] [] with
    | .error e => .error e
    | .ok (stmt, vals) => .ok (stmt, convert_values vals)

/-- BaseStatement._build_statement for a Delete. -/
def delete_build_statement (s : DeleteStmt) : Except PorusError (String × List PyValue) :=
  match Delete.validate s with
  | .error e => .error e
  | .ok s2 =>
    match buildFoldG (pySort (fun sl : GSlot => sl.kind.value) s2.statements) "" [] [] with
    | .error e => .error e
    | .ok (stmt, vals) => .ok (stmt, convert_values vals)

/-- Engine._convert_row_to_object on a Table instance: `fields` are the
declared field names, `current` the instance's present values (one per field,
in declared order), `row` the returned row.  A row whose length differs from
the field count raises; otherwise each field positionally receives the row's
value (the source skips the setattr when old and new are equal, which leaves
the same final value). -/
def convert_row_to_object (fields : List String) (current row : List PyValue) :
    Except PorusError (List PyValue) :=
  if row.length ≠ fields.length then .error (.rowArityMismatch row.length fields.length)
  else .ok ((current.zip row).map fun p => if p.1 ≠ p.2 then p.2 else p.1)

/-- The sort key `_build_statement` uses: the clause enum's numeric value. -/
def slotRank (s : Slot) : Nat :=
  s.kind.rank

/-- The string `_build_statement` accumulates for a list of clause fragments:
each fragment appended after a single space, starting from the empty
string. -/
def renderFragments (l : List String) : String :=
  l.foldl (fun acc c => acc ++ " " ++ c) ""

/-- One chained clause-adding call on a query statement. -/
inductive ClauseCall
  | limit (n : Int)
  | offset (n : Int)
  | whereClause (w : WhereStatement)
  | group_by (columns : List Column)
  | order_by (columns : List Column) (ascending : Bool)
deriving DecidableEq

/-- Apply one chained call to a query statement. -/
def applyCall (q : QueryStmt) : ClauseCall → QueryStmt
  | .limit n => q.limit n
  | .offset n => q.offset n
  | .whereClause w => q.whereClause w
  | .group_by columns => q.group_by columns
  | .order_by columns ascending => q.order_by columns ascending

/-- Apply a chain of clause-adding calls left to right. -/
def applyCalls (q : QueryStmt) (calls : List ClauseCall) : QueryStmt :=
  calls.foldl applyCall q

/-- The slot each chained call appends (each clause method appends exactly
one slot). -/
def slotOfCall : ClauseCall → Slot
  | .limit n => { clause := "LIMIT ?", kind := .LIMIT, values := .some [.int n] }
  | .offset n => { clause := "OFFSET ?", kind := .OFFSET, values := .some [.int n] }
  | .whereClause w => { clause := "WHERE " ++ w.statement, kind := .WHERE, values := .some w.values }
  | .group_by columns => { clause := "GROUP BY " ++ String.intercalate ", " (columns.map Column.column_name), kind := .GROUP_BY, values := .none }
  | .order_by columns ascending => { clause := "ORDER BY " ++ String.intercalate ", " (columns.map Column.column_name) ++ " " ++ (if ascending then "ASC" else "DESC"), kind := .ORDER_BY, values := .none }

/-- Number of positional placeholders in a rendered fragment. -/
def countPlaceholders (s : String) : Nat :=
  s.data.count (Char.ofNat 63)

/-- A User record as built by `User(name="Hello")` in the repository's own
tests: the primary-key field `id` defaults to None (falsy), `name` holds the
given string. -/
def c1SampleUser : TableObj :=
  { table_name := "user"
    fields :=
      [ { name := "id", primary_key := true, value := .none }
      , { name := "name", primary_key := false, value := .str "Hello" } ] }

/-- A two-cell heap of where-statements, for instantiating the aliasing
theorems on concrete inputs. -/
def c10Heap : Nat → WhereStatement :=
  fun n =>
    if n = 0 then { statement := "id = ?", values := [.int 1] }
    else { statement := "name = ?", values := [.str "a"] }

/-- Inserting with `pyInsert` is a permutation of consing. -/
theorem pyInsert_perm {α : Type} (key : α → Nat) (x : α) :
    ∀ l : List α, (pyInsert key x l).Perm (x :: l)
  | [] => by simp [pyInsert]
  | y :: ys => by
    by_cases h : key y ≤ key x
    · simp only [pyInsert, if_pos h]
      exact ((pyInsert_perm key x ys).cons y).trans (List.Perm.swap x y ys)
    · simp [pyInsert, if_neg h]

/-- `pyInsert` preserves sortedness by the key. -/
theorem pyInsert_sorted {α : Type} (key : α → Nat) (x : α) :
    ∀ l : List α, l.Pairwise (fun a b => key a ≤ key b) →
      (pyInsert key x l).Pairwise (fun a b => key a ≤ key b)
  | [], _ => by simp [pyInsert]
  | y :: ys, h => by
    rcases List.pairwise_cons.mp h with ⟨hy, hys⟩
    by_cases hxy : key y ≤ key x
    · simp only [pyInsert, if_pos hxy]
      refine List.pairwise_cons.mpr ⟨?_, pyInsert_sorted key x ys hys⟩
      intro b hb
      have hb2 : b = x ∨ b ∈ ys := by
        simpa using (pyInsert_perm key x ys).mem_iff.mp hb
      rcases hb2 with rfl | hb2
      · exact hxy
      · exact hy b hb2
    · have hxy2 : key x ≤ key y := le_of_not_le hxy
      simp only [pyInsert, if_neg hxy]
      refine List.pairwise_cons.mpr ⟨?_, h⟩
      intro b hb
      rcases List.mem_cons.mp hb with hb | hb
      · exact hb ▸ hxy2
      · exact le_trans hxy2 (hy b hb)

/-- The sorting driver permutes its input onto the accumulator. -/
theorem pySortAux_perm {α : Type} (key : α → Nat) :
    ∀ (l acc : List α), (pySortAux key acc l).Perm (acc ++ l)
  | [], acc => by simp [pySortAux]
  | x :: xs, acc => by
    show (pySortAux key (pyInsert key x acc) xs).Perm (acc ++ x :: xs)
    have h1 := pySortAux_perm key xs (pyInsert key x acc)
    have h2 : (pyInsert key x acc ++ xs).Perm (x :: (acc ++ xs)) :=
      (pyInsert_perm key x acc).append_right xs
    exact (h1.trans h2).trans List.perm_middle.symm

/-- The sorting driver keeps the accumulator sorted. -/
theorem pySortAux_sorted {α : Type} (key : α → Nat) :
    ∀ (l acc : List α), acc.Pairwise (fun a b => key a ≤ key b) →
      (pySortAux key acc l).Pairwise (fun a b => key a ≤ key b)
  | [], _, h => h
  | x :: xs, acc, h => pySortAux_sorted key xs (pyInsert key x acc) (pyInsert_sorted key x acc h)

/-- `pySort` permutes its input. -/
theorem pySort_perm {α : Type} (key : α → Nat) (l : List α) :
    (pySort key l).Perm l := by
  simpa [pySort] using pySortAux_perm key l []

/-- `pySort` sorts by the key. -/
theorem pySort_sorted {α : Type} (key : α → Nat) (l : List α) :
    (pySort key l).Pairwise (fun a b => key a ≤ key b) :=
  pySortAux_sorted key l [] (List.Pairwise.nil)

/-- Two key-sorted permutations of each other with pairwise-distinct keys are
the same list: the sorted form of a list with unique clause ranks is unique,
whatever the insertion order was. -/
theorem sorted_key_nodup_eq {α : Type} (key : α → Nat) {l1 l2 : List α}
    (hp : l1.Perm l2)
    (hs1 : l1.Pairwise (fun a b => key a ≤ key b))
    (hs2 : l2.Pairwise (fun a b => key a ≤ key b))
    (hnd : (l1.map key).Nodup) : l1 = l2 := by
  have hne1 : l1.Pairwise (fun a b => key a ≠ key b) := List.pairwise_map.mp hnd
  have hnd2 : (l2.map key).Nodup := ((hp.map key).nodup_iff).mp hnd
  have hne2 : l2.Pairwise (fun a b => key a ≠ key b) := List.pairwise_map.mp hnd2
  have hlt1 : l1.Pairwise (fun a b => key a < key b) :=
    (hs1.and hne1).imp fun h => lt_of_le_of_ne h.1 h.2
  have hlt2 : l2.Pairwise (fun a b => key a < key b) :=
    (hs2.and hne2).imp fun h => lt_of_le_of_ne h.1 h.2
  exact @List.eq_of_perm_of_sorted α (fun a b => key a < key b)
    ⟨fun a b h1 h2 => absurd (h1.trans h2) (lt_irrefl _)⟩ l1 l2 hp hlt1 hlt2

/-- When the slots to walk, together with the kinds already seen, repeat a
clause kind, the build loop raises the duplicate-clause error. -/
theorem buildFold_dup :
    ∀ (l : List Slot) (stmt : String) (vals : List PyValue) (seen : List QueryClause),
      seen.Nodup → ¬ (l.map Slot.kind ++ seen).Nodup →
      ∃ k, buildFold l stmt vals seen = .error (.duplicateClause k)
  | [], stmt, vals, seen, hseen, hdup => absurd (by simpa using hseen) hdup
  | s :: rest, stmt, vals, seen, hseen, hdup => by
    by_cases hmem : s.kind ∈ seen
    · exact ⟨s.kind.rank, by simp [buildFold, hmem]⟩
    · have hseen2 : (s.kind :: seen).Nodup := List.nodup_cons.mpr ⟨hmem, hseen⟩
      have hperm : ((rest.map Slot.kind) ++ (s.kind :: seen)).Perm
          (((s :: rest).map Slot.kind) ++ seen) := by
        have h0 : ((rest.map Slot.kind) ++ (s.kind :: seen)).Perm
            (s.kind :: ((rest.map Slot.kind) ++ seen)) := List.perm_middle
        simpa using h0
      have hdup2 : ¬ ((rest.map Slot.kind) ++ (s.kind :: seen)).Nodup := fun h =>
        hdup (hperm.nodup_iff.mp h)
      obtain ⟨k, hk⟩ := buildFold_dup rest (stmt ++ " " ++ s.clause)
        (vals ++ (if slotValuesTruthy s.values then slotValuesList s.values else []))
        (s.kind :: seen) hseen2 hdup2
      exact ⟨k, by simp [buildFold, hmem, hk]⟩

/-- When no clause kind repeats, the build loop succeeds. -/
theorem buildFold_ok :
    ∀ (l : List Slot) (stmt : String) (vals : List PyValue) (seen : List QueryClause),
      ((l.map Slot.kind) ++ seen).Nodup →
      ∃ out, buildFold l stmt vals seen = .ok out
  | [], stmt, vals, seen, _ => ⟨(stmt, vals), rfl⟩
  | s :: rest, stmt, vals, seen, hnd => by
    have hperm : ((rest.map Slot.kind) ++ (s.kind :: seen)).Perm
        (((s :: rest).map Slot.kind) ++ seen) := by
      have h0 : ((rest.map Slot.kind) ++ (s.kind :: seen)).Perm
          (s.kind :: ((rest.map Slot.kind) ++ seen)) := List.perm_middle
      simpa using h0
    have hnd2 : ((rest.map Slot.kind) ++ (s.kind :: seen)).Nodup := hperm.nodup_iff.mpr hnd
    have hmem : s.kind ∉ seen :=
      (List.nodup_cons.mp (List.nodup_append.mp hnd2).2.1).1
    obtain ⟨out, hout⟩ := buildFold_ok rest (stmt ++ " " ++ s.clause)
      (vals ++ (if slotValuesTruthy s.values then slotValuesList s.values else []))
      (s.kind :: seen) hnd2
    exact ⟨out, by simp [buildFold, hmem, hout]⟩

/-- The clause ranks 0..6 identify the clause kinds uniquely. -/
theorem rank_injective : ∀ a b : QueryClause, a.rank = b.rank → a = b := by
  intro a b
  cases a <;> cases b <;> simp [QueryClause.rank]

/-- Each chained call appends exactly its slot, so a chain of calls appends
the corresponding slots in call order. -/
theorem applyCalls_statements (q : QueryStmt) :
    ∀ calls : List ClauseCall,
      (applyCalls q calls).statements = q.statements ++ calls.map slotOfCall
  | [] => by simp [applyCalls]
  | c :: cs => by
    show (applyCalls (applyCall q c) cs).statements = _
    rw [applyCalls_statements (applyCall q c) cs]
    have hc : (applyCall q c).statements = q.statements ++ [slotOfCall c] := by
      cases c <;> rfl
    rw [hc]
    simp

/-- Query._validate_query written out as nested conditionals. -/
theorem validate_cases (q : QueryStmt) :
    Query.validate q =
      (if QueryClause.SELECT ∉ q.statements.map Slot.kind then
        .error (.missingClause "SELECT")
      else if QueryClause.FROM ∉ q.statements.map Slot.kind then
        .error (.missingClause "FROM")
      else if QueryClause.OFFSET ∈ q.statements.map Slot.kind ∧
          QueryClause.LIMIT ∉ q.statements.map Slot.kind then
        .ok (q.limit (-1))
      else .ok q) := rfl

/-- The sorted fold of two slot lists that are permutations of each other
with pairwise-distinct clause kinds is identical. -/
theorem buildFold_sorted_perm_eq (l1 l2 : List Slot) (hp : l1.Perm l2)
    (hnd1 : (l1.map Slot.kind).Nodup) :
    buildFold (pySort (fun s : Slot => s.kind.rank) l1) "" [] [] =
      buildFold (pySort (fun s : Slot => s.kind.rank) l2) "" [] [] := by
  have hraninj : Function.Injective QueryClause.rank := fun a b hab => rank_injective a b hab
  have hkey1 : (l1.map fun s : Slot => s.kind.rank).Nodup := by
    simpa [List.map_map] using hnd1.map hraninj
  have hps : (pySort (fun s : Slot => s.kind.rank) l1).Perm
      (pySort (fun s : Slot => s.kind.rank) l2) :=
    ((pySort_perm _ l1).trans hp).trans (pySort_perm _ l2).symm
  have hpnd : ((pySort (fun s : Slot => s.kind.rank) l1).map fun s : Slot => s.kind.rank).Nodup :=
    (((pySort_perm _ l1).map _).nodup_iff).mpr hkey1
  rw [sorted_key_nodup_eq (fun s : Slot => s.kind.rank) hps
    (pySort_sorted _ l1) (pySort_sorted _ l2) hpnd]

/-- Rendering is insertion-order independent: two query statements whose
accumulated slots are permutations of each other, with no repeated clause
kind, render to the same statement and value list. -/
theorem build_statement_perm (q1 q2 : QueryStmt)
    (h : q1.statements.Perm q2.statements)
    (hnd : (q1.statements.map Slot.kind).Nodup) :
    build_statement q1 = build_statement q2 := by
  have hk : (q1.statements.map Slot.kind).Perm (q2.statements.map Slot.kind) := h.map _
  unfold build_statement
  rw [validate_cases q1, validate_cases q2]
  by_cases h1 : QueryClause.SELECT ∈ q1.statements.map Slot.kind
  · have h1' : QueryClause.SELECT ∈ q2.statements.map Slot.kind := hk.mem_iff.mp h1
    rw [if_neg (not_not_intro h1), if_neg (not_not_intro h1')]
    by_cases h2 : QueryClause.FROM ∈ q1.statements.map Slot.kind
    · have h2' : QueryClause.FROM ∈ q2.statements.map Slot.kind := hk.mem_iff.mp h2
      rw [if_neg (not_not_intro h2), if_neg (not_not_intro h2')]
      by_cases h3 : QueryClause.OFFSET ∈ q1.statements.map Slot.kind ∧
          QueryClause.LIMIT ∉ q1.statements.map Slot.kind
      · have h3' : QueryClause.OFFSET ∈ q2.statements.map Slot.kind ∧
            QueryClause.LIMIT ∉ q2.statements.map Slot.kind :=
          ⟨hk.mem_iff.mp h3.1, fun hc => h3.2 (hk.mem_iff.mpr hc)⟩
        rw [if_pos h3, if_pos h3']
        have hperm : ((q1.limit (-1)).statements).Perm ((q2.limit (-1)).statements) := by
          simpa [QueryStmt.limit] using h.append_right _
        have hnd1 : (((q1.limit (-1)).statements).map Slot.kind).Nodup := by
          simp only [QueryStmt.limit, List.map_append]
          have : ((q1.statements.map Slot.kind) ++ [QueryClause.LIMIT]).Perm
              (QueryClause.LIMIT :: q1.statements.map Slot.kind) :=
            List.perm_append_singleton _ _
          exact this.nodup_iff.mpr (List.nodup_cons.mpr ⟨h3.2, hnd⟩)
        simp only []
        rw [buildFold_sorted_perm_eq _ _ hperm hnd1]
      · have h3' : ¬ (QueryClause.OFFSET ∈ q2.statements.map Slot.kind ∧
            QueryClause.LIMIT ∉ q2.statements.map Slot.kind) := fun hc =>
          h3 ⟨hk.mem_iff.mpr hc.1, fun hm => hc.2 (hk.mem_iff.mp hm)⟩
        rw [if_neg h3, if_neg h3']
        simp only []
        rw [buildFold_sorted_perm_eq _ _ h hnd]
    · have h2' : QueryClause.FROM ∉ q2.statements.map Slot.kind := fun hc =>
        h2 (hk.mem_iff.mpr hc)
      rw [if_pos h2, if_pos h2']
  · have h1' : QueryClause.SELECT ∉ q2.statements.map Slot.kind := fun hc =>
      h1 (hk.mem_iff.mpr hc)
    rw [if_pos h1, if_pos h1']

/-- Placeholder counting distributes over string append. -/
theorem countPlaceholders_append (a b : String) :
    countPlaceholders (a ++ b) = countPlaceholders a + countPlaceholders b := by
  simp [countPlaceholders, String.data_append, List.count_append]

/-- Writing each row value over the matching current value positionally
yields exactly the row, whatever the current values were. -/
theorem zip_override_eq :
    ∀ (current row : List PyValue), current.length = row.length →
      ((current.zip row).map fun p => if p.1 ≠ p.2 then p.2 else p.1) = row
  | [], [], _ => rfl
  | [], r :: rs, h => by simp at h
  | c :: cs, [], h => by simp at h
  | c :: cs, r :: rs, h => by
    have htail := zip_override_eq cs rs (by simpa using h)
    simp only [List.zip_cons_cons, List.map_cons, htail]
    by_cases hcr : c = r
    · simp [hcr]
    · simp [hcr]

/-- C1.  The claim states that `Engine.insert` builds and executes a full
parameterized `INSERT INTO <table> (<columns>) VALUES (<one ? per value>)
RETURNING *` statement.  The code is a slip: the placeholder list and the
RETURNING clause sit on a bare-expression line that is never concatenated, so
the executed SQL ends after `VALUES `.  Evaluated at the repository's own
test input `User(name="Hello")` (test_main.test_add_single_row): the falsy
primary key is excluded and the remaining field is kept in declared order as
claimed, yet the executed statement is the bare prefix, not the claimed full
statement. -/
theorem c1_insert_statement_truncated :
    insertKeys c1SampleUser = ["name"] ∧
    insertValues c1SampleUser = [.str "Hello"] ∧
    insertStatementExecuted c1SampleUser = "INSERT INTO user (name) VALUES " ∧
    insertStatementClaimed c1SampleUser = "INSERT INTO user (name) VALUES (?) RETURNING *;" ∧
    insertStatementExecuted c1SampleUser ≠ insertStatementClaimed c1SampleUser := by
  refine ⟨rfl, rfl, rfl, rfl, by decide⟩

/-- C2.  The claim states that `Engine.push` issues CREATE TABLE exactly when
no table of the schema's name is in the catalog, the check being a name
match.  The code is a slip: the name filter of the catalog query sits on a
bare-expression line that is never concatenated, so the executed check is
truthy whenever any table at all exists.  Evaluated at the repository's own
test sequence (test_relationship: push Artist, then push Album): with only
"artist" in the catalog, the claimed name check for "album" is false, yet the
code's check is true and push issues no CREATE TABLE; on an empty catalog the
first push does create the table. -/
theorem c2_push_existence_check_ignores_name :
    check_if_table_exists ["artist"] "album" = true ∧
    check_if_table_exists_claimed ["artist"] "album" = false ∧
    push ["artist"] "album" = (["artist"], false) ∧
    push [] "artist" = (["artist"], true) :=
  ⟨rfl, rfl, rfl, rfl⟩

/-- C3.  The claim (and the function's own docstring) states that value
coercion converts a boolean to the integer 0/1 and passes null, integer,
real, text, and byte values through unchanged.  Because `bool` is a subclass
of `int` in Python, a boolean already satisfies the first `isinstance` check
and is returned unchanged — the boolean branch is dead code.  The
pass-through and textual-fallback parts hold. -/
theorem c3_convert_values_bool_branch_dead :
    convert_values [.bool true, .bool false] = [.bool true, .bool false] ∧
    convert_values [.bool true] ≠ [.int 1] ∧
    convert_values [.none, .int 5, .float 1, .str "a", .bytes [0, 255]] =
      [.none, .int 5, .float 1, .str "a", .bytes [0, 255]] ∧
    convert_values [.obj "Decimal" "1.5"] = [.str "1.5"] :=
  ⟨rfl, by decide, rfl, rfl⟩

/-- C8.  On a delete statement, order_by, limit and offset each consist of a
single `raise InvalidOperationError(...)`: for every receiver and every
argument the call fails immediately with the statement-kind error, and since
the raise precedes any assignment, no mutated statement is ever produced —
the receiver's accumulated slots are untouched. -/
theorem c8_delete_rejects_order_by_limit_offset :
    ∀ (d : DeleteStmt) (columns : List Column) (ascending : Bool) (n m : Int),
      Delete.order_by d columns ascending = .error .invalidOperation ∧
      Delete.limit d n = .error .invalidOperation ∧
      Delete.offset d m = .error .invalidOperation :=
  fun _ _ _ _ _ => ⟨rfl, rfl, rfl⟩

/-- C10.  Combining two where-statements with AND or OR mutates the left
operand in place: the returned reference is the left operand's own, the left
cell now holds the parenthesised combined fragment with the value lists
concatenated left then right, and (for distinct objects) the right cell is
unchanged — so any alias of the left operand observes the combination. -/
theorem c10_where_and_or_mutate_left_operand :
    ∀ (heap : Nat → WhereStatement) (a b : Nat),
      (whereAndRef heap a b).2 = a ∧
      (whereAndRef heap a b).1 a =
        { statement := "(" ++ (heap a).statement ++ " AND " ++ (heap b).statement ++ ")"
          values := (heap a).values ++ (heap b).values } ∧
      (a ≠ b → (whereAndRef heap a b).1 b = heap b) ∧
      (whereOrRef heap a b).2 = a ∧
      (whereOrRef heap a b).1 a =
        { statement := "(" ++ (heap a).statement ++ " OR " ++ (heap b).statement ++ ")"
          values := (heap a).values ++ (heap b).values } ∧
      (a ≠ b → (whereOrRef heap a b).1 b = heap b) := by
  intro heap a b
  refine ⟨rfl, ?_, ?_, rfl, ?_, ?_⟩
  · simp [whereAndRef, WhereStatement.andW]
  · intro hab
    simp [whereAndRef, Function.update_noteq (Ne.symm hab)]
  · simp [whereOrRef, WhereStatement.orW]
  · intro hab
    simp [whereOrRef, Function.update_noteq (Ne.symm hab)]

/-- Witness for C10 on a concrete two-cell heap with distinct references. -/
theorem c10_witness :
    (whereAndRef c10Heap 0 1).2 = 0 ∧
    (whereAndRef c10Heap 0 1).1 0 =
      { statement := "(id = ? AND name = ?)", values := [.int 1, .str "a"] } ∧
    (whereAndRef c10Heap 0 1).1 1 = c10Heap 1 := by
  obtain ⟨h1, h2, h3, _⟩ := c10_where_and_or_mutate_left_operand c10Heap 0 1
  exact ⟨h1, by rw [h2]; decide, h3 (by decide)⟩

/-- Once validation has produced a statement, rendering is the sorted fold
over its slots followed by value coercion. -/
theorem build_statement_validated (q q2 : QueryStmt) (h : Query.validate q = .ok q2) :
    build_statement q =
      (match buildFold (pySort (fun s : Slot => s.kind.rank) q2.statements) "" [] [] with
        | .error e => .error e
        | .ok (stmt, vals) => .ok (stmt, convert_values vals)) := by
  unfold build_statement
  rw [h]

/-- A query statement whose mandatory slots are present and whose clause
kinds do not repeat renders successfully. -/
theorem build_statement_ok (q : QueryStmt)
    (hsel : QueryClause.SELECT ∈ q.statements.map Slot.kind)
    (hfrom : QueryClause.FROM ∈ q.statements.map Slot.kind)
    (hnd : (q.statements.map Slot.kind).Nodup) :
    ∃ out, build_statement q = .ok out := by
  by_cases h3 : QueryClause.OFFSET ∈ q.statements.map Slot.kind ∧
      QueryClause.LIMIT ∉ q.statements.map Slot.kind
  · have hv : Query.validate q = .ok (q.limit (-1)) := by
      rw [validate_cases q, if_neg (not_not_intro hsel), if_neg (not_not_intro hfrom), if_pos h3]
    have hnd2 : (((q.limit (-1)).statements).map Slot.kind).Nodup := by
      simp only [QueryStmt.limit, List.map_append]
      exact (List.perm_append_singleton _ _).nodup_iff.mpr (List.nodup_cons.mpr ⟨h3.2, hnd⟩)
    have hnd3 : (((pySort (fun s : Slot => s.kind.rank) (q.limit (-1)).statements).map Slot.kind)
        ++ []).Nodup := by
      simp only [List.append_nil]
      exact (((pySort_perm _ _).map Slot.kind).nodup_iff).mpr hnd2
    obtain ⟨⟨stmt, vals⟩, hout⟩ := buildFold_ok _ "" [] [] hnd3
    exact ⟨(stmt, convert_values vals), by rw [build_statement_validated q _ hv, hout]⟩
  · have hv : Query.validate q = .ok q := by
      rw [validate_cases q, if_neg (not_not_intro hsel), if_neg (not_not_intro hfrom), if_neg h3]
    have hnd3 : (((pySort (fun s : Slot => s.kind.rank) q.statements).map Slot.kind) ++ []).Nodup := by
      simp only [List.append_nil]
      exact (((pySort_perm _ _).map Slot.kind).nodup_iff).mpr hnd
    obtain ⟨⟨stmt, vals⟩, hout⟩ := buildFold_ok _ "" [] [] hnd3
    exact ⟨(stmt, convert_values vals), by rw [build_statement_validated q _ hv, hout]⟩

/-- On a query statement whose mandatory SELECT and FROM slots are present
(the builder always seeds them), if some clause kind has been added twice —
whatever the clause arguments — then rendering via _build_statement fails
with the duplicate-clause error. -/
theorem build_statement_dup_error (q : QueryStmt)
    (hsel : QueryClause.SELECT ∈ q.statements.map Slot.kind)
    (hfrom : QueryClause.FROM ∈ q.statements.map Slot.kind)
    (hdup : ¬ (q.statements.map Slot.kind).Nodup) :
    ∃ k, build_statement q = .error (.duplicateClause k) := by
  by_cases h3 : QueryClause.OFFSET ∈ q.statements.map Slot.kind ∧
      QueryClause.LIMIT ∉ q.statements.map Slot.kind
  · have hv : Query.validate q = .ok (q.limit (-1)) := by
      rw [validate_cases q, if_neg (not_not_intro hsel), if_neg (not_not_intro hfrom), if_pos h3]
    have hdup2 : ¬ (((q.limit (-1)).statements).map Slot.kind).Nodup := by
      simp only [QueryStmt.limit, List.map_append]
      intro hnd
      exact hdup (List.Nodup.sublist (List.sublist_append_left _ _) hnd)
    have hdup3 : ¬ ((((pySort (fun s : Slot => s.kind.rank) (q.limit (-1)).statements).map Slot.kind))
        ++ []).Nodup := by
      simp only [List.append_nil]
      intro hnd
      exact hdup2 ((((pySort_perm _ _).map Slot.kind).nodup_iff).mp hnd)
    obtain ⟨k, hk⟩ := buildFold_dup _ "" [] [] List.nodup_nil hdup3
    exact ⟨k, by rw [build_statement_validated q _ hv, hk]⟩
  · have hv : Query.validate q = .ok q := by
      rw [validate_cases q, if_neg (not_not_intro hsel), if_neg (not_not_intro hfrom), if_neg h3]
    have hdup3 : ¬ ((((pySort (fun s : Slot => s.kind.rank) q.statements).map Slot.kind)) ++ []).Nodup := by
      simp only [List.append_nil]
      intro hnd
      exact hdup ((((pySort_perm _ _).map Slot.kind).nodup_iff).mp hnd)
    obtain ⟨k, hk⟩ := buildFold_dup _ "" [] [] List.nodup_nil hdup3
    exact ⟨k, by rw [build_statement_validated q _ hv, hk]⟩

/-- The Update/Delete build loop raises the duplicate-clause error whenever
the walked slots, together with the kinds already seen, repeat an enum
member. -/
theorem buildFoldG_dup :
    ∀ (l : List GSlot) (stmt : String) (vals : List PyValue) (seen : List PyEnumMember),
      seen.Nodup → ¬ (l.map GSlot.kind ++ seen).Nodup →
      ∃ k, buildFoldG l stmt vals seen = .error (.duplicateClause k)
  | [], stmt, vals, seen, hseen, hdup => absurd (by simpa using hseen) hdup
  | s :: rest, stmt, vals, seen, hseen, hdup => by
    by_cases hmem : s.kind ∈ seen
    · exact ⟨s.kind.value, by simp [buildFoldG, hmem]⟩
    · have hseen2 : (s.kind :: seen).Nodup := List.nodup_cons.mpr ⟨hmem, hseen⟩
      have hperm : ((rest.map GSlot.kind) ++ (s.kind :: seen)).Perm
          (((s :: rest).map GSlot.kind) ++ seen) := by
        have h0 : ((rest.map GSlot.kind) ++ (s.kind :: seen)).Perm
            (s.kind :: ((rest.map GSlot.kind) ++ seen)) := List.perm_middle
        simpa using h0
      have hdup2 : ¬ ((rest.map GSlot.kind) ++ (s.kind :: seen)).Nodup := fun h =>
        hdup (hperm.nodup_iff.mp h)
      obtain ⟨k, hk⟩ := buildFoldG_dup rest (stmt ++ " " ++ s.clause)
        (vals ++ (if slotValuesTruthy s.values then slotValuesList s.values else []))
        (s.kind :: seen) hseen2 hdup2
      exact ⟨k, by simp [buildFoldG, hmem, hk]⟩

/-- Once Update._validate_query has passed, rendering an update statement is
the sorted fold over its slots followed by value coercion. -/
theorem update_build_validated (s s2 : UpdateStmt) (h : Update.validate s = .ok s2) :
    update_build_statement s =
      (match buildFoldG (pySort (fun sl : GSlot => sl.kind.value) s2.statements) "" [] [] with
        | .error e => .error e
        | .ok (stmt, vals) => .ok (stmt, convert_values vals)) := by
  unfold update_build_statement
  rw [h]

/-- Once Delete._validate_query has passed, rendering a delete statement is
the sorted fold over its slots followed by value coercion. -/
theorem delete_build_validated (s s2 : DeleteStmt) (h : Delete.validate s = .ok s2) :
    delete_build_statement s =
      (match buildFoldG (pySort (fun sl : GSlot => sl.kind.value) s2.statements) "" [] [] with
        | .error e => .error e
        | .ok (stmt, vals) => .ok (stmt, convert_values vals)) := by
  unfold delete_build_statement
  rw [h]

/-- On an update statement whose slots never carry UpdateClause.LIMIT or
UpdateClause.OFFSET — which is every statement built through the API, since
the inherited limit/offset methods tag their slots with QueryClause members —
Update._validate_query neither raises nor repairs: both guards test
UpdateClause membership and Enum members of different classes are never
equal. -/
theorem update_validate_ok (s : UpdateStmt)
    (hu : PyEnumMember.u UpdateClause.UPDATE ∈ s.statements.map GSlot.kind)
    (hs : PyEnumMember.u UpdateClause.SET ∈ s.statements.map GSlot.kind)
    (hl : PyEnumMember.u UpdateClause.LIMIT ∉ s.statements.map GSlot.kind)
    (ho : PyEnumMember.u UpdateClause.OFFSET ∉ s.statements.map GSlot.kind) :
    Update.validate s = .ok s := by
  have h3 : ¬ ((PyEnumMember.u UpdateClause.LIMIT ∈ s.statements.map GSlot.kind ∨
      PyEnumMember.u UpdateClause.OFFSET ∈ s.statements.map GSlot.kind) ∧
      PyEnumMember.u UpdateClause.RETURNING ∉ s.statements.map GSlot.kind) := by
    rintro ⟨h | h, -⟩
    · exact hl h
    · exact ho h
  have h4 : ¬ (PyEnumMember.u UpdateClause.OFFSET ∈ s.statements.map GSlot.kind ∧
      PyEnumMember.u UpdateClause.LIMIT ∉ s.statements.map GSlot.kind) := fun hc => ho hc.1
  unfold Update.validate
  rw [if_neg (not_not_intro hu), if_neg (not_not_intro hs), if_neg h3, if_neg h4]

/-- Each update clause call appends exactly its slot. -/
theorem applyUpdateCall_statements (s : UpdateStmt) (c : UpdateCall) :
    (applyUpdateCall s c).statements = s.statements ++ [slotOfUpdateCall c] := by
  cases c <;> try rfl
  rename_i columns
  by_cases h : columns.isEmpty <;>
    simp [applyUpdateCall, UpdateStmt.returning, slotOfUpdateCall, h]

/-- A chain of update clause calls appends the corresponding slots in call
order. -/
theorem applyUpdateCalls_statements (s : UpdateStmt) :
    ∀ calls : List UpdateCall,
      (applyUpdateCalls s calls).statements = s.statements ++ calls.map slotOfUpdateCall
  | [] => by simp [applyUpdateCalls]
  | c :: cs => by
    show (applyUpdateCalls (applyUpdateCall s c) cs).statements = _
    rw [applyUpdateCalls_statements (applyUpdateCall s c) cs, applyUpdateCall_statements]
    simp

/-- No update clause call ever appends a slot tagged UpdateClause.LIMIT or
UpdateClause.OFFSET: limit and offset tag QueryClause members, returning
tags UpdateClause.RETURNING. -/
theorem updateCall_kind_not_update_limit_offset (c : UpdateCall) :
    (slotOfUpdateCall c).kind ≠ PyEnumMember.u UpdateClause.LIMIT ∧
    (slotOfUpdateCall c).kind ≠ PyEnumMember.u UpdateClause.OFFSET := by
  cases c <;> try simp [slotOfUpdateCall]
  rename_i columns
  by_cases h : columns = [] <;> simp [h]

/-- Each delete clause call appends exactly its slot. -/
theorem applyDeleteCall_statements (s : DeleteStmt) (c : DeleteCall) :
    (applyDeleteCall s c).statements = s.statements ++ [slotOfDeleteCall c] := by
  cases c <;> try rfl
  rename_i columns
  by_cases h : columns.isEmpty <;>
    simp [applyDeleteCall, DeleteStmt.returning, slotOfDeleteCall, h]

/-- A chain of delete clause calls appends the corresponding slots in call
order. -/
theorem applyDeleteCalls_statements (s : DeleteStmt) :
    ∀ calls : List DeleteCall,
      (applyDeleteCalls s calls).statements = s.statements ++ calls.map slotOfDeleteCall
  | [] => by simp [applyDeleteCalls]
  | c :: cs => by
    show (applyDeleteCalls (applyDeleteCall s c) cs).statements = _
    rw [applyDeleteCalls_statements (applyDeleteCall s c) cs, applyDeleteCall_statements]
    simp

/-- An update statement with validation-passing slots and a repeated enum
member fails with the duplicate-clause error. -/
theorem update_build_dup_error (s : UpdateStmt)
    (hu : PyEnumMember.u UpdateClause.UPDATE ∈ s.statements.map GSlot.kind)
    (hs : PyEnumMember.u UpdateClause.SET ∈ s.statements.map GSlot.kind)
    (hl : PyEnumMember.u UpdateClause.LIMIT ∉ s.statements.map GSlot.kind)
    (ho : PyEnumMember.u UpdateClause.OFFSET ∉ s.statements.map GSlot.kind)
    (hdup : ¬ (s.statements.map GSlot.kind).Nodup) :
    ∃ k, update_build_statement s = .error (.duplicateClause k) := by
  have hv := update_validate_ok s hu hs hl ho
  have hdup3 : ¬ ((((pySort (fun sl : GSlot => sl.kind.value) s.statements).map GSlot.kind))
      ++ []).Nodup := by
    simp only [List.append_nil]
    intro hnd
    exact hdup ((((pySort_perm _ _).map GSlot.kind).nodup_iff).mp hnd)
  obtain ⟨k, hk⟩ := buildFoldG_dup _ "" [] [] List.nodup_nil hdup3
  exact ⟨k, by rw [update_build_validated s s hv, hk]⟩

/-- A delete statement with its seeded DELETE slot and a repeated enum
member fails with the duplicate-clause error. -/
theorem delete_build_dup_error (s : DeleteStmt)
    (hd : PyEnumMember.d DeleteClause.DELETE ∈ s.statements.map GSlot.kind)
    (hdup : ¬ (s.statements.map GSlot.kind).Nodup) :
    ∃ k, delete_build_statement s = .error (.duplicateClause k) := by
  have hv : Delete.validate s = .ok s := by
    unfold Delete.validate
    rw [if_neg (not_not_intro hd)]
  have hdup3 : ¬ ((((pySort (fun sl : GSlot => sl.kind.value) s.statements).map GSlot.kind))
      ++ []).Nodup := by
    simp only [List.append_nil]
    intro hnd
    exact hdup ((((pySort_perm _ _).map GSlot.kind).nodup_iff).mp hnd)
  obtain ⟨k, hk⟩ := buildFoldG_dup _ "" [] [] List.nodup_nil hdup3
  exact ⟨k, by rw [delete_build_validated s s hv, hk]⟩

/-- C4.  Duplicate clause detection is shared by every statement kind: the
fold in BaseStatement._build_statement walks the rank-sorted slots and
raises on the first clause kind already seen.  (i) A query statement with
its seeded SELECT and FROM present and any repeated clause kind renders to
the duplicate-clause error, whatever the arguments.  (ii) An update
statement seeded by Update.__init__ and extended by any chain of clause
calls with a repeated kind — in particular .limit(x).limit(y) with no
RETURNING — passes validation unchanged and then renders to the
duplicate-clause error: the LIMIT/OFFSET-without-RETURNING guard of
Update._validate_query (update.py lines 57-60) tests membership of
UpdateClause.LIMIT and UpdateClause.OFFSET, but the inherited limit/offset
methods append slots tagged QueryClause.LIMIT and QueryClause.OFFSET
(base_statement.py lines 45 and 50), and Python Enum members of different
Enum classes are never equal (Enum compares members by identity), so that
guard cannot fire for any statement built through the API and validation
reaches the duplicate check.  (iii) A delete statement extended by any
chain of its non-raising clause calls (where, returning) with a repeated
kind renders to the duplicate-clause error. -/
theorem c4_duplicate_clause_always_rejected :
    (∀ q : QueryStmt,
      QueryClause.SELECT ∈ q.statements.map Slot.kind →
      QueryClause.FROM ∈ q.statements.map Slot.kind →
      ¬ (q.statements.map Slot.kind).Nodup →
      ∃ k, build_statement q = .error (.duplicateClause k)) ∧
    (∀ (tbl : String) (frags : List String) (vals : List PyValue) (calls : List UpdateCall),
      ¬ (((applyUpdateCalls (Update.fromSet tbl frags vals) calls).statements.map
        GSlot.kind).Nodup) →
      Update.validate (applyUpdateCalls (Update.fromSet tbl frags vals) calls) =
        .ok (applyUpdateCalls (Update.fromSet tbl frags vals) calls) ∧
      ∃ k, update_build_statement (applyUpdateCalls (Update.fromSet tbl frags vals) calls) =
        .error (.duplicateClause k)) ∧
    (∀ (tbl : String) (calls : List DeleteCall),
      ¬ (((applyDeleteCalls (Delete.fromTable tbl) calls).statements.map GSlot.kind).Nodup) →
      ∃ k, delete_build_statement (applyDeleteCalls (Delete.fromTable tbl) calls) =
        .error (.duplicateClause k)) := by
  refine ⟨build_statement_dup_error, ?_, ?_⟩
  · intro tbl frags vals calls hdup
    have hst := applyUpdateCalls_statements (Update.fromSet tbl frags vals) calls
    have hu : PyEnumMember.u UpdateClause.UPDATE ∈
        (applyUpdateCalls (Update.fromSet tbl frags vals) calls).statements.map GSlot.kind := by
      rw [hst]
      simp [Update.fromSet]
    have hs : PyEnumMember.u UpdateClause.SET ∈
        (applyUpdateCalls (Update.fromSet tbl frags vals) calls).statements.map GSlot.kind := by
      rw [hst]
      simp [Update.fromSet]
    have hl : PyEnumMember.u UpdateClause.LIMIT ∉
        (applyUpdateCalls (Update.fromSet tbl frags vals) calls).statements.map GSlot.kind := by
      rw [hst]
      simp only [List.map_append, List.mem_append]
      rintro (h | h)
      · simp [Update.fromSet] at h
      · rw [List.mem_map] at h
        obtain ⟨sl, hsl, hk⟩ := h
        rw [List.mem_map] at hsl
        obtain ⟨c, hc, rfl⟩ := hsl
        exact (updateCall_kind_not_update_limit_offset c).1 hk
    have ho : PyEnumMember.u UpdateClause.OFFSET ∉
        (applyUpdateCalls (Update.fromSet tbl frags vals) calls).statements.map GSlot.kind := by
      rw [hst]
      simp only [List.map_append, List.mem_append]
      rintro (h | h)
      · simp [Update.fromSet] at h
      · rw [List.mem_map] at h
        obtain ⟨sl, hsl, hk⟩ := h
        rw [List.mem_map] at hsl
        obtain ⟨c, hc, rfl⟩ := hsl
        exact (updateCall_kind_not_update_limit_offset c).2 hk
    exact ⟨update_validate_ok _ hu hs hl ho, update_build_dup_error _ hu hs hl ho hdup⟩
  · intro tbl calls hdup
    have hst := applyDeleteCalls_statements (Delete.fromTable tbl) calls
    have hd : PyEnumMember.d DeleteClause.DELETE ∈
        (applyDeleteCalls (Delete.fromTable tbl) calls).statements.map GSlot.kind := by
      rw [hst]
      simp [Delete.fromTable]
    exact delete_build_dup_error _ hd hdup

/-- Witness for C4: `.limit(3).limit(4)` on a whole-table query, and
`.limit(1).limit(2)` with no RETURNING on `engine.update(A.c.num + 1)` —
in the update case validation passes (the RETURNING guard cannot see the
QueryClause-tagged LIMIT slots) and rendering fails with the
duplicate-clause error. -/
theorem c4_witness :
    (∃ k, build_statement (((Query.fromTable "user").limit 3).limit 4) =
      .error (.duplicateClause k)) ∧
    (Update.validate (applyUpdateCalls (Update.fromSet "a" ["num = num + ?"] [.int 1])
        [UpdateCall.limit 1, UpdateCall.limit 2]) =
      .ok (applyUpdateCalls (Update.fromSet "a" ["num = num + ?"] [.int 1])
        [UpdateCall.limit 1, UpdateCall.limit 2])) ∧
    (∃ k, update_build_statement (applyUpdateCalls (Update.fromSet "a" ["num = num + ?"] [.int 1])
        [UpdateCall.limit 1, UpdateCall.limit 2]) =
      .error (.duplicateClause k)) := by
  refine ⟨?_, ?_, ?_⟩
  · exact c4_duplicate_clause_always_rejected.1 _ (by decide) (by decide) (by decide)
  · exact (c4_duplicate_clause_always_rejected.2.1 "a" ["num = num + ?"] [.int 1]
      [UpdateCall.limit 1, UpdateCall.limit 2] (by decide)).1
  · exact (c4_duplicate_clause_always_rejected.2.1 "a" ["num = num + ?"] [.int 1]
      [UpdateCall.limit 1, UpdateCall.limit 2] (by decide)).2

/-- C5.  Two permutations of the same chained clause-adding calls on a
whole-table query render identically — the clause fragments are concatenated
in the fixed clause-rank order and the value list follows that same sorted
slot order — and, when no clause kind repeats, rendering succeeds. -/
theorem c5_clause_order_independence (tbl : String) (calls1 calls2 : List ClauseCall)
    (hp : calls1.Perm calls2)
    (hnd : ((applyCalls (Query.fromTable tbl) calls1).statements.map Slot.kind).Nodup) :
    build_statement (applyCalls (Query.fromTable tbl) calls1) =
      build_statement (applyCalls (Query.fromTable tbl) calls2) ∧
    ∃ out, build_statement (applyCalls (Query.fromTable tbl) calls1) = .ok out := by
  have hperm : (applyCalls (Query.fromTable tbl) calls1).statements.Perm
      (applyCalls (Query.fromTable tbl) calls2).statements := by
    rw [applyCalls_statements, applyCalls_statements]
    exact (hp.map slotOfCall).append_left _
  refine ⟨build_statement_perm _ _ hperm hnd, ?_⟩
  have hsel : QueryClause.SELECT ∈
      (applyCalls (Query.fromTable tbl) calls1).statements.map Slot.kind := by
    rw [applyCalls_statements]
    simp [Query.fromTable]
  have hfrom : QueryClause.FROM ∈
      (applyCalls (Query.fromTable tbl) calls1).statements.map Slot.kind := by
    rw [applyCalls_statements]
    simp [Query.fromTable]
  exact build_statement_ok _ hsel hfrom hnd

/-- Witness for C5: `.offset(2).limit(1)` and `.limit(1).offset(2)` render
to the same statement. -/
theorem c5_witness :
    build_statement (applyCalls (Query.fromTable "user")
        [ClauseCall.offset 2, ClauseCall.limit 1]) =
      build_statement (applyCalls (Query.fromTable "user")
        [ClauseCall.limit 1, ClauseCall.offset 2]) :=
  (c5_clause_order_independence "user" [ClauseCall.offset 2, ClauseCall.limit 1]
    [ClauseCall.limit 1, ClauseCall.offset 2]
    (List.Perm.swap (ClauseCall.limit 1) (ClauseCall.offset 2) [])
    (by decide)).1

/-- C6.  The offset-without-limit repair: validation silently appends a
`LIMIT ?` slot binding -1 whenever OFFSET is present at render time and
LIMIT is not, so `.offset(n)` alone renders with both LIMIT and OFFSET
(binding -1 then n), while `.offset(n).limit(m)` renders the same shape with
m bound unchanged. -/
theorem c6_offset_without_limit_repair :
    (∀ q : QueryStmt,
      QueryClause.SELECT ∈ q.statements.map Slot.kind →
      QueryClause.FROM ∈ q.statements.map Slot.kind →
      QueryClause.OFFSET ∈ q.statements.map Slot.kind →
      QueryClause.LIMIT ∉ q.statements.map Slot.kind →
      Query.validate q = .ok (q.limit (-1))) ∧
    (∀ (tbl : String) (n : Int),
      build_statement ((Query.fromTable tbl).offset n) =
        .ok (renderFragments ["SELECT *", "FROM " ++ tbl, "LIMIT ?", "OFFSET ?"],
          [.int (-1), .int n])) ∧
    (∀ (tbl : String) (n m : Int),
      build_statement (((Query.fromTable tbl).offset n).limit m) =
        .ok (renderFragments ["SELECT *", "FROM " ++ tbl, "LIMIT ?", "OFFSET ?"],
          [.int m, .int n])) := by
  refine ⟨?_, ?_, ?_⟩
  · intro q hs hf ho hl
    rw [validate_cases q, if_neg (not_not_intro hs), if_neg (not_not_intro hf), if_pos ⟨ho, hl⟩]
  · intro tbl n
    rfl
  · intro tbl n m
    rfl

/-- Witness for C6 at the concrete table "user" and offset 7. -/
theorem c6_witness :
    Query.validate ((Query.fromTable "user").offset 7) =
      .ok (((Query.fromTable "user").offset 7).limit (-1)) ∧
    build_statement ((Query.fromTable "user").offset 7) =
      .ok (" SELECT * FROM user LIMIT ? OFFSET ?", [.int (-1), .int 7]) := by
  constructor
  · exact c6_offset_without_limit_repair.1 ((Query.fromTable "user").offset 7)
      (by decide) (by decide) (by decide) (by decide)
  · rw [c6_offset_without_limit_repair.2.1 "user" 7]
    rfl

/-- C7.  Every comparison operator on a column checks the operand against
the declared annotation (Python's isinstance, under which booleans also
match integer columns): a non-instance operand fails with the type-mismatch
error and no clause expression is produced, while a matching operand yields
the fragment `<field> <op> ?` binding exactly the one operand. -/
theorem c7_comparisons_type_checked (c : Column) (op : CompOp) (other : PyValue) :
    (isinstanceOf other c.annot = false →
      Column.compare c op other = .error .typeMismatch) ∧
    (isinstanceOf other c.annot = true →
      Column.compare c op other =
        .ok { statement := c.column_name ++ " " ++ op.sym ++ " ?", values := [other] }) ∧
    (isinstanceOf other c.annot = true → countPlaceholders c.column_name = 0 →
      ∀ w, Column.compare c op other = .ok w →
        countPlaceholders w.statement = 1 ∧ w.values = [other]) := by
  have hok : isinstanceOf other c.annot = true →
      Column.compare c op other =
        .ok { statement := c.column_name ++ " " ++ op.sym ++ " ?", values := [other] } := by
    intro h
    cases op <;>
      simp [Column.compare, Column.eqOp, Column.neOp, Column.ltOp, Column.leOp,
        Column.gtOp, Column.geOp, h, CompOp.sym, String.append_assoc]
  refine ⟨?_, hok, ?_⟩
  · intro h
    cases op <;>
      simp [Column.compare, Column.eqOp, Column.neOp, Column.ltOp, Column.leOp,
        Column.gtOp, Column.geOp, h]
  · intro h hq w hw
    rw [hok h] at hw
    injection hw with hw2
    subst hw2
    refine ⟨?_, rfl⟩
    rw [countPlaceholders_append, countPlaceholders_append, countPlaceholders_append, hq]
    cases op <;> decide

/-- Witness for C7: an int column compared with a string fails, compared
with an integer succeeds with a single bound placeholder. -/
theorem c7_witness :
    Column.compare { annot := PyType.intTy, column_name := "id", table_name := "user" }
        CompOp.eq (.str "x") = .error .typeMismatch ∧
    Column.compare { annot := PyType.intTy, column_name := "id", table_name := "user" }
        CompOp.eq (.int 5) = .ok { statement := "id = ?", values := [.int 5] } := by
  constructor
  · exact (c7_comparisons_type_checked _ _ _).1 rfl
  · rw [(c7_comparisons_type_checked
      { annot := PyType.intTy, column_name := "id", table_name := "user" }
      CompOp.eq (.int 5)).2.1 rfl]
    rfl

/-- C9.  Materialization onto a record whose field values align with the
declared fields: a row whose column count differs from the field count fails
with the row-arity-mismatch error (the raise precedes the assignment loop,
so nothing is modified), and a row of matching arity is written onto the
fields positionally in declared order. -/
theorem c9_row_arity_checked (fields : List String) (current row : List PyValue)
    (hc : current.length = fields.length) :
    (row.length ≠ fields.length →
      convert_row_to_object fields current row =
        .error (.rowArityMismatch row.length fields.length)) ∧
    (row.length = fields.length →
      convert_row_to_object fields current row = .ok row) := by
  constructor
  · intro h
    unfold convert_row_to_object
    rw [if_pos h]
  · intro h
    unfold convert_row_to_object
    rw [if_neg (not_not_intro h)]
    rw [zip_override_eq current row (hc.trans h.symm)]

/-- Witness for C9 on the two-field schema (id, name): a two-value row
materializes positionally, a one-value row fails with the arity error. -/
theorem c9_witness :
    convert_row_to_object ["id", "name"] [.none, .str "a"] [.int 1, .str "a"] =
      .ok [.int 1, .str "a"] ∧
    convert_row_to_object ["id", "name"] [.none, .str "a"] [.int 1] =
      .error (.rowArityMismatch 1 2) := by
  constructor
  · exact (c9_row_arity_checked ["id", "name"] [.none, .str "a"] [.int 1, .str "a"]
      (by decide)).2 (by decide)
  · exact (c9_row_arity_checked ["id", "name"] [.none, .str "a"] [.int 1]
      (by decide)).1 (by decide)
